import Mathlib

/-!
Verification of the microsoft-planner-mcp server (src/src/index.ts).

The server exposes Microsoft Planner operations as MCP tools.  Every guarded
mutation follows the same protocol: fetch the resource's ETag via a GET,
build a JSON delta body, and issue a PATCH/DELETE with an If-Match header.
We embed the pure parts of that protocol shallowly:

* `Json` models the JSON values the server builds (JS object key order is
  preserved as a list of pairs, exactly as `JSON.stringify` serializes it).
* `GraphEnv` models the remote Graph API as a family of response functions;
  each tool's `execute` closure becomes a Lean function from the environment
  and its parameters to its result together with the list of network
  `Effect`s it performs, in order.
* JS truthiness tests (`if (assignUserId)`, `a || b`) are modelled by
  `jsTruthy` / `jsOr` on `Option String` (`none` = undefined/null,
  `some ""` = the falsy empty string).
-/

/-- JSON values as built by the server; objects keep insertion order. -/
inductive Json where
  | null : Json
  | bool : Bool → Json
  | num : Int → Json
  | str : String → Json
  | arr : List Json → Json
  | obj : List (String × Json) → Json

/-- Keys of a JSON object, in insertion order. -/
def jsonKeys : Json → List String
  | .obj l => l.map Prod.fst
  | _ => []

/-- Values of a JSON object, in insertion order. -/
def jsonVals : Json → List Json
  | .obj l => l.map Prod.snd
  | _ => []

/-- First value bound to a key in a JSON object (JS property lookup). -/
def lookupField (j : Json) (k : String) : Option Json :=
  match j with
  | .obj l => (l.find? (fun p => p.1 == k)).map Prod.snd
  | _ => none

/-- The three resource kinds `getETag` in index.ts supports. -/
inductive ResourceType where
  | task
  | taskDetails
  | bucket
deriving DecidableEq, Repr

def graphBase : String := "https://graph.microsoft.com/v1.0"

/-- The `urlMap` of `getETag`: endpoint of each resource kind. -/
def resourceUrl : ResourceType → String → String
  | .task, id => graphBase ++ "/planner/tasks/" ++ id
  | .taskDetails, id => graphBase ++ "/planner/tasks/" ++ id ++ "/details"
  | .bucket, id => graphBase ++ "/planner/buckets/" ++ id

def planUrl (planId : String) : String :=
  graphBase ++ "/planner/plans/" ++ planId

def threadsListUrl (groupId convId : String) : String :=
  graphBase ++ "/groups/" ++ groupId ++ "/conversations/" ++ convId ++ "/threads"

def postsUrl (groupId convId threadId : String) : String :=
  graphBase ++ "/groups/" ++ groupId ++ "/conversations/" ++ convId ++ "/threads/" ++ threadId ++ "/posts"

def replyUrl (groupId convId threadId : String) : String :=
  graphBase ++ "/groups/" ++ groupId ++ "/conversations/" ++ convId ++ "/threads/" ++ threadId ++ "/reply"

def groupThreadsUrl (groupId : String) : String :=
  graphBase ++ "/groups/" ++ groupId ++ "/threads"

/-- JS truthiness of a string-valued field: undefined/null and "" are falsy. -/
def jsTruthy : Option String → Bool
  | some s => !(s == "")
  | none => false

/-- JS `a || b` on possibly-absent strings. -/
def jsOr (a b : Option String) : Option String :=
  if jsTruthy a then a else b

/-- JS `a || d` where the fallback is a present string. -/
def jsOrElse (a : Option String) (d : String) : String :=
  match a with
  | some s => if s == "" then d else s
  | none => d

/-- A Planner task record as read by the server (fields it uses). -/
structure TaskRecord where
  title : String
  planId : String
  conversationThreadId : Option String
deriving DecidableEq, Repr

/-- A conversation thread as listed by Graph. -/
structure GraphThread where
  id : String
deriving DecidableEq, Repr

/-- A post inside a thread, reduced to the fields get-task-comments reads. -/
structure GraphPost where
  id : String
  content : Option String
  contentType : Option String
  createdDateTime : String
  fromName : Option String
  fromAddress : Option String
deriving DecidableEq, Repr

/-- Response of POSTing a new group thread (Branch B of add-task-comment). -/
structure CreateThreadResp where
  conversationId : Option String
  id : String
deriving DecidableEq, Repr

/-- The remote Graph API as seen by one tool call: what each GET returns and
whether the final attach PATCH of add-task-comment succeeds. -/
structure GraphEnv where
  taskOf : String → TaskRecord
  groupIdOf : String → String
  threadsOf : String → String → List GraphThread
  postsOf : String → String → String → List GraphPost
  createThreadResp : CreateThreadResp
  etag : ResourceType → String → String
  attachSucceeds : Bool

/-- `getETag(resourceType, resourceId)`: GET the resource, read `@odata.etag`. -/
def getETag (env : GraphEnv) (rt : ResourceType) (id : String) : String :=
  env.etag rt id

/-- `etag.replace(/"/g, '\\"')`: shell-escape the quotes before putting the
token in the If-Match header of the az command line. -/
def escapeEtag (s : String) : String :=
  s.replace "\"" "\\\""

/-- One network round trip performed by a tool call. -/
inductive Effect where
  | getReq : String → Effect
  | postReq : String → Json → Effect
  | patchReq : String → String → Json → Effect
  | deleteReq : String → String → Effect

/-- URLs of the GET (token-fetch / read) requests in a trace, in order. -/
def etagFetches (es : List Effect) : List String :=
  es.filterMap fun e =>
    match e with
    | .getReq u => some u
    | _ => none

/-- The guarded writes in a trace: (url, If-Match header value) pairs. -/
def guardedWrites (es : List Effect) : List (String × String) :=
  es.filterMap fun e =>
    match e with
    | .patchReq u m _ => some (u, m)
    | .deleteReq u m => some (u, m)
    | _ => none

/-- Errors the server raises (taxonomy of spec §7 restricted to those the
embedded operations produce). -/
inductive PlannerError where
  | validationError
  | emptyConversationError
deriving DecidableEq, Repr

/-- The fixed assignment value of update-task: type discriminator plus the
" !" place-last order hint. -/
def assignmentValue : Json :=
  .obj [("@odata.type", .str "#microsoft.graph.plannerAssignment"),
        ("orderHint", .str " !")]

/-- The PATCH body built by update-task's execute: title and percentComplete
are added when not undefined, assignments and appliedCategories only when
the argument is truthy (JS `if (assignUserId)` / `if (category)`). -/
def updateTaskBody (title : Option String) (percentComplete : Option Int)
    (assignUserId category : Option String) : Json :=
  .obj
    ((match title with
      | some t => [("title", Json.str t)]
      | none => []) ++
     (match percentComplete with
      | some p => [("percentComplete", Json.num p)]
      | none => []) ++
     (if jsTruthy assignUserId then
        match assignUserId with
        | some u => [("assignments", Json.obj [(u, assignmentValue)])]
        | none => []
      else []) ++
     (if jsTruthy category then
        match category with
        | some c => [("appliedCategories", Json.obj [(c, Json.bool true)])]
        | none => []
      else []))

/-- update-task's execute: fetch the task ETag, then PATCH the task with the
delta body, guarding with the escaped token. -/
def updateTaskExec (env : GraphEnv) (taskId : String) (title : Option String)
    (percentComplete : Option Int) (assignUserId category : Option String) :
    List Effect :=
  let etag := getETag env .task taskId
  [.getReq (resourceUrl .task taskId),
   .patchReq (resourceUrl .task taskId) (escapeEtag etag)
     (updateTaskBody title percentComplete assignUserId category)]

/-- The update-task tool: zod validates `percentComplete` against min 0 /
max 100 before execute runs, so an out-of-range value produces a validation
error with no network traffic. -/
def updateTaskTool (env : GraphEnv) (taskId : String) (title : Option String)
    (percentComplete : Option Int) (assignUserId category : Option String) :
    Except PlannerError Unit × List Effect :=
  match percentComplete with
  | some p =>
      if p < 0 ∨ 100 < p then (.error .validationError, [])
      else (.ok (), updateTaskExec env taskId title (some p) assignUserId category)
  | none => (.ok (), updateTaskExec env taskId title none assignUserId category)

/-- List with the given key when the optional parameter is present. -/
def optKey {α : Type} (k : String) : Option α → List String
  | some _ => [k]
  | none => []

/-- move-task's execute: fetch the task ETag, PATCH the task with bucketId. -/
def moveTaskExec (env : GraphEnv) (taskId bucketId : String) : List Effect :=
  let etag := getETag env .task taskId
  [.getReq (resourceUrl .task taskId),
   .patchReq (resourceUrl .task taskId) (escapeEtag etag)
     (.obj [("bucketId", .str bucketId)])]

/-- delete-task's execute: fetch the task ETag, DELETE the task. -/
def deleteTaskExec (env : GraphEnv) (taskId : String) : List Effect :=
  let etag := getETag env .task taskId
  [.getReq (resourceUrl .task taskId),
   .deleteReq (resourceUrl .task taskId) (escapeEtag etag)]

/-- update-task-details' execute: fetch the task-details ETag, PATCH the
details with the description. -/
def updateTaskDetailsExec (env : GraphEnv) (taskId description : String) :
    List Effect :=
  let etag := getETag env .taskDetails taskId
  [.getReq (resourceUrl .taskDetails taskId),
   .patchReq (resourceUrl .taskDetails taskId) (escapeEtag etag)
     (.obj [("description", .str description)])]

/-- A checklist map entry as built by the add-checklist tools. -/
def checklistEntry (title : String) (isChecked : Bool) : Json :=
  .obj [("@odata.type", .str "#microsoft.graph.plannerChecklistItem"),
        ("title", .str title),
        ("isChecked", .bool isChecked)]

/-- add-checklist-item's PATCH body: one fresh id mapped to the entry. -/
def addChecklistItemBody (itemId title : String) (isChecked : Bool) : Json :=
  .obj [("checklist", .obj [(itemId, checklistEntry title isChecked)])]

/-- add-checklist-item's execute: the fresh `randomUUID()` is passed in as
`itemId`; the zod default makes isChecked false when absent. -/
def addChecklistItemExec (env : GraphEnv) (taskId itemId title : String)
    (isChecked : Bool) : List Effect :=
  let etag := getETag env .taskDetails taskId
  [.getReq (resourceUrl .taskDetails taskId),
   .patchReq (resourceUrl .taskDetails taskId) (escapeEtag etag)
     (addChecklistItemBody itemId title isChecked)]

/-- The checklist map built by add-checklist-items' loop: the i-th title is
keyed by the i-th `randomUUID()` drawn (modelled as `ids i`), each entry
with isChecked false. -/
def addChecklistItemsMap (ids : Nat → String) (items : List String) :
    List (String × Json) :=
  items.enum.map fun p => (ids p.1, checklistEntry p.2 false)

/-- add-checklist-items' PATCH body. -/
def addChecklistItemsBody (ids : Nat → String) (items : List String) : Json :=
  .obj [("checklist", .obj (addChecklistItemsMap ids items))]

/-- add-checklist-items' execute. -/
def addChecklistItemsExec (env : GraphEnv) (taskId : String)
    (ids : Nat → String) (items : List String) : List Effect :=
  let etag := getETag env .taskDetails taskId
  [.getReq (resourceUrl .taskDetails taskId),
   .patchReq (resourceUrl .taskDetails taskId) (escapeEtag etag)
     (addChecklistItemsBody ids items)]

/-- update-checklist-item's item update object: the type discriminator plus
title / isChecked only when not undefined. -/
def checklistItemUpdate (title : Option String) (isChecked : Option Bool) :
    Json :=
  .obj
    ([("@odata.type", Json.str "#microsoft.graph.plannerChecklistItem")] ++
     (match title with
      | some t => [("title", Json.str t)]
      | none => []) ++
     (match isChecked with
      | some b => [("isChecked", Json.bool b)]
      | none => []))

/-- update-checklist-item's execute. -/
def updateChecklistItemExec (env : GraphEnv) (taskId itemId : String)
    (title : Option String) (isChecked : Option Bool) : List Effect :=
  let etag := getETag env .taskDetails taskId
  [.getReq (resourceUrl .taskDetails taskId),
   .patchReq (resourceUrl .taskDetails taskId) (escapeEtag etag)
     (.obj [("checklist", .obj [(itemId, checklistItemUpdate title isChecked)])])]

/-- delete-checklist-item's PATCH body: the item id mapped to null. -/
def deleteChecklistItemBody (itemId : String) : Json :=
  .obj [("checklist", .obj [(itemId, .null)])]

/-- delete-checklist-item's execute. -/
def deleteChecklistItemExec (env : GraphEnv) (taskId itemId : String) :
    List Effect :=
  let etag := getETag env .taskDetails taskId
  [.getReq (resourceUrl .taskDetails taskId),
   .patchReq (resourceUrl .taskDetails taskId) (escapeEtag etag)
     (deleteChecklistItemBody itemId)]

/-- update-bucket's execute: fetch the bucket ETag, PATCH the bucket name. -/
def updateBucketExec (env : GraphEnv) (bucketId name : String) : List Effect :=
  let etag := getETag env .bucket bucketId
  [.getReq (resourceUrl .bucket bucketId),
   .patchReq (resourceUrl .bucket bucketId) (escapeEtag etag)
     (.obj [("name", .str name)])]

/-- delete-bucket's execute: fetch the bucket ETag, DELETE the bucket. -/
def deleteBucketExec (env : GraphEnv) (bucketId : String) : List Effect :=
  let etag := getETag env .bucket bucketId
  [.getReq (resourceUrl .bucket bucketId),
   .deleteReq (resourceUrl .bucket bucketId) (escapeEtag etag)]

/-- Characters `encodeURIComponent` leaves unescaped: A-Z a-z 0-9 and
the marks - _ . ! ~ * apostrophe ( ) (ECMA-262 uriUnescaped set; the
apostrophe is written by code point 39). -/
def isComponentUnescaped (c : Char) : Bool :=
  (65 ≤ c.toNat && c.toNat ≤ 90) ||
  (97 ≤ c.toNat && c.toNat ≤ 122) ||
  (48 ≤ c.toNat && c.toNat ≤ 57) ||
  c == '-' || c == '_' || c == '.' || c == '!' || c == '~' || c == '*' ||
  c.toNat == 39 || c == '(' || c == ')'

/-- Uppercase hexadecimal digits used by percent-escapes. -/
def hexDigits : List Char := "0123456789ABCDEF".data

/-- The hex digit for a value below 16 (callers pass values below 16). -/
def hexDigitChar (n : Nat) : Char := hexDigits.getD (n % 16) '0'

/-- Percent-escape of one byte, uppercase hex as ECMA-262 requires. -/
def percentEncodeByte (b : Nat) : List Char :=
  ['%', hexDigitChar (b / 16), hexDigitChar (b % 16)]

/-- UTF-8 bytes of one code point (encodeURIComponent escapes the UTF-8
encoding of each character). -/
def utf8Bytes (c : Char) : List Nat :=
  let n := c.toNat
  if n < 128 then [n]
  else if n < 2048 then [192 + n / 64, 128 + n % 64]
  else if n < 65536 then [224 + n / 4096, 128 + (n / 64) % 64, 128 + n % 64]
  else [240 + n / 262144, 128 + (n / 4096) % 64, 128 + (n / 64) % 64, 128 + n % 64]

/-- Encoding of one character under `encodeURIComponent`. -/
def encodeURIComponentChar (c : Char) : List Char :=
  if isComponentUnescaped c then [c]
  else (utf8Bytes c).flatMap percentEncodeByte

/-- JS `encodeURIComponent`, the builtin `encodeUrlForReference` delegates to. -/
def encodeURIComponent (s : String) : String :=
  ⟨s.data.flatMap encodeURIComponentChar⟩

/-- `encodeUrlForReference(url)`: plain `encodeURIComponent(url)` with a
comment warning only about periods (which the builtin leaves alone). -/
def encodeUrlForReference (url : String) : String :=
  encodeURIComponent url

/-- add-reference's reference value: type discriminator plus alias / type
only when truthy (JS `if (alias)` / `if (type)`). -/
def referenceData (aliasName refType : Option String) : Json :=
  .obj
    ([("@odata.type", Json.str "#microsoft.graph.plannerExternalReference")] ++
     (if jsTruthy aliasName then
        match aliasName with
        | some a => [("alias", Json.str a)]
        | none => []
      else []) ++
     (if jsTruthy refType then
        match refType with
        | some t => [("type", Json.str t)]
        | none => []
      else []))

/-- add-reference's PATCH body: references keyed by the encoded URL. -/
def addReferenceBody (refUrl : String) (aliasName refType : Option String) : Json :=
  .obj [("references", .obj [(encodeUrlForReference refUrl, referenceData aliasName refType)])]

/-- add-reference's execute. -/
def addReferenceExec (env : GraphEnv) (taskId refUrl : String)
    (aliasName refType : Option String) : List Effect :=
  let etag := getETag env .taskDetails taskId
  [.getReq (resourceUrl .taskDetails taskId),
   .patchReq (resourceUrl .taskDetails taskId) (escapeEtag etag)
     (addReferenceBody refUrl aliasName refType)]

/-- delete-reference's PATCH body: the encoded URL mapped to null. -/
def deleteReferenceBody (refUrl : String) : Json :=
  .obj [("references", .obj [(encodeUrlForReference refUrl, .null)])]

/-- delete-reference's execute. -/
def deleteReferenceExec (env : GraphEnv) (taskId refUrl : String) :
    List Effect :=
  let etag := getETag env .taskDetails taskId
  [.getReq (resourceUrl .taskDetails taskId),
   .patchReq (resourceUrl .taskDetails taskId) (escapeEtag etag)
     (deleteReferenceBody refUrl)]

/-- One flattened comment as returned by get-task-comments. -/
structure TaskComment where
  id : String
  threadId : String
  content : Option String
  contentType : Option String
  createdDateTime : String
  fromField : Option String
deriving DecidableEq, Repr

/-- Result of get-task-comments: either the no-conversation message object
or the flattened comment list. -/
inductive CommentsOutput where
  | noComments : CommentsOutput
  | comments : List TaskComment → CommentsOutput
deriving DecidableEq, Repr

/-- get-task-comments' execute: read the task; without a truthy conversation
reference answer the no-comments message; otherwise resolve the group, list
the threads and flatten every thread's posts in listing order. -/
def getTaskComments (env : GraphEnv) (taskId : String) :
    Except PlannerError CommentsOutput :=
  let task := env.taskOf taskId
  if !(jsTruthy task.conversationThreadId) then
    .ok .noComments
  else
    let groupId := env.groupIdOf task.planId
    let convId := task.conversationThreadId.getD ""
    let threads := env.threadsOf groupId convId
    .ok (.comments (threads.flatMap fun t =>
      (env.postsOf groupId convId t.id).map fun p =>
        { id := p.id
          threadId := t.id
          content := p.content
          contentType := p.contentType
          createdDateTime := p.createdDateTime
          fromField := jsOr p.fromName p.fromAddress }))

/-- The post wrapper body used when replying to an existing thread. -/
def replyPostBody (comment : String) : Json :=
  .obj [("post", .obj [("body",
    Json.obj [("contentType", Json.str "text"), ("content", Json.str comment)])])]

/-- The body POSTed to create a new group thread: topic is the task's title,
posts a single text post carrying the comment. -/
def newThreadBody (title comment : String) : Json :=
  .obj [("topic", .str title),
        ("posts", .arr [.obj [("body",
          Json.obj [("contentType", Json.str "text"), ("content", Json.str comment)])]])]

/-- Result of add-task-comment. -/
inductive AddCommentResult where
  | repliedExisting : AddCommentResult
  | createdNew : String → AddCommentResult
  | createdNewWithWarning : String → AddCommentResult
deriving DecidableEq, Repr

/-- add-task-comment's execute.  Branch A (truthy conversation reference):
list the threads, raise the empty-conversation error when none exist, else
reply to the first listed thread.  Branch B: create a thread with the task's
title as topic, take `conversationId || id` from the response, fetch the
task ETag and PATCH the conversation id onto the task; a failing PATCH still
answers success, with a warning carrying the conversation id. -/
def addTaskComment (env : GraphEnv) (taskId comment : String) :
    Except PlannerError AddCommentResult × List Effect :=
  let task := env.taskOf taskId
  let groupId := env.groupIdOf task.planId
  let baseTrace : List Effect :=
    [.getReq (resourceUrl .task taskId), .getReq (planUrl task.planId)]
  if jsTruthy task.conversationThreadId then
    let convId := task.conversationThreadId.getD ""
    let threads := env.threadsOf groupId convId
    let listTrace := baseTrace ++ [Effect.getReq (threadsListUrl groupId convId)]
    match threads with
    | [] => (.error .emptyConversationError, listTrace)
    | t :: _ =>
        (.ok .repliedExisting,
         listTrace ++ [Effect.postReq (replyUrl groupId convId t.id) (replyPostBody comment)])
  else
    let resp := env.createThreadResp
    let convId := jsOrElse resp.conversationId resp.id
    let etag := getETag env .task taskId
    let fullTrace := baseTrace ++
      [Effect.postReq (groupThreadsUrl groupId) (newThreadBody task.title comment),
       Effect.getReq (resourceUrl .task taskId),
       Effect.patchReq (resourceUrl .task taskId) (escapeEtag etag)
         (.obj [("conversationThreadId", .str convId)])]
    if env.attachSucceeds then
      (.ok (.createdNew convId), fullTrace)
    else
      (.ok (.createdNewWithWarning convId), fullTrace)

/-! Concrete environments used to instantiate the theorems below. -/

/-- An environment whose task has no conversation reference. -/
def envW : GraphEnv where
  taskOf := fun _ => { title := "T", planId := "P", conversationThreadId := none }
  groupIdOf := fun _ => "G"
  threadsOf := fun _ _ => []
  postsOf := fun _ _ _ => []
  createThreadResp := { conversationId := none, id := "CONV1" }
  etag := fun _ _ => "W/\"abc\""
  attachSucceeds := true

/-- An environment whose task has a conversation reference with no threads. -/
def envConv : GraphEnv where
  taskOf := fun _ => { title := "T", planId := "P", conversationThreadId := some "CONV" }
  groupIdOf := fun _ => "G"
  threadsOf := fun _ _ => []
  postsOf := fun _ _ _ => []
  createThreadResp := { conversationId := none, id := "CONV1" }
  etag := fun _ _ => "W/\"abc\""
  attachSucceeds := true

/-- Like `envConv` but the conversation has one thread. -/
def envConvThread : GraphEnv where
  taskOf := fun _ => { title := "T", planId := "P", conversationThreadId := some "CONV" }
  groupIdOf := fun _ => "G"
  threadsOf := fun _ _ => [{ id := "TH1" }]
  postsOf := fun _ _ _ => []
  createThreadResp := { conversationId := none, id := "CONV1" }
  etag := fun _ _ => "W/\"abc\""
  attachSucceeds := true

/-- Like `envW` but the attach PATCH of add-task-comment fails. -/
def envAttachFail : GraphEnv where
  taskOf := fun _ => { title := "T", planId := "P", conversationThreadId := none }
  groupIdOf := fun _ => "G"
  threadsOf := fun _ _ => []
  postsOf := fun _ _ _ => []
  createThreadResp := { conversationId := none, id := "CONV1" }
  etag := fun _ _ => "W/\"abc\""
  attachSucceeds := false

/-- A concrete injective id supply standing in for `randomUUID()`. -/
def idsW : Nat → String := fun n => String.mk (List.replicate n 'a')

/-- Claim C7: delete-checklist-item and delete-reference build deltas whose
only content for the targeted key (the item id, or the encoded reference
URL) is the explicit null marker — a single-entry map binding the key to
null, never an update object with empty fields. -/
theorem C7_delete_deltas_are_null_markers (itemId refUrl : String) :
    deleteChecklistItemBody itemId =
      Json.obj [("checklist", Json.obj [(itemId, Json.null)])] ∧
    deleteReferenceBody refUrl =
      Json.obj [("references", Json.obj [(encodeUrlForReference refUrl, Json.null)])] ∧
    lookupField (deleteChecklistItemBody itemId) "checklist" =
      some (Json.obj [(itemId, Json.null)]) ∧
    lookupField (deleteReferenceBody refUrl) "references" =
      some (Json.obj [(encodeUrlForReference refUrl, Json.null)]) := by
  refine ⟨rfl, rfl, ?_, ?_⟩ <;>
    simp [lookupField, deleteChecklistItemBody, deleteReferenceBody]

/-- Claim C10: an empty-string assignUserId or category is treated as absent
by update-task's truthiness checks (the delta has no assignments or
appliedCategories key), while an empty-string title is kept and sent as
title set to the empty string. -/
theorem C10_empty_string_parameters :
    (∀ (title : Option String) (pc : Option Int) (cat : Option String),
      updateTaskBody title pc (some "") cat = updateTaskBody title pc none cat) ∧
    (∀ (title : Option String) (pc : Option Int) (assign : Option String),
      updateTaskBody title pc assign (some "") = updateTaskBody title pc assign none) ∧
    (∀ (pc : Option Int) (assign cat : Option String),
      lookupField (updateTaskBody (some "") pc assign cat) "title" =
        some (Json.str "")) ∧
    updateTaskBody (some "") none none none = Json.obj [("title", Json.str "")] := by
  refine ⟨?_, ?_, ?_, rfl⟩
  · intro title pc cat
    simp [updateTaskBody, jsTruthy]
  · intro title pc assign
    simp [updateTaskBody, jsTruthy]
  · intro pc assign cat
    simp [updateTaskBody, lookupField]

/-- Claim C4: an update-task call with percentComplete in 0..100 carries
exactly that integer in the PATCH delta under percentComplete, while any
out-of-range value fails validation with an empty network trace (no token
fetch and no write). -/
theorem C4_percent_complete_validation (env : GraphEnv) (taskId : String)
    (title assign cat : Option String) (p : Int) :
    (0 ≤ p → p ≤ 100 →
      updateTaskTool env taskId title (some p) assign cat =
        (.ok (), updateTaskExec env taskId title (some p) assign cat) ∧
      lookupField (updateTaskBody title (some p) assign cat) "percentComplete" =
        some (Json.num p)) ∧
    ((p < 0 ∨ 100 < p) →
      updateTaskTool env taskId title (some p) assign cat =
        (.error .validationError, [])) := by
  constructor
  · intro h0 h1
    have hcond : ¬(p < 0 ∨ 100 < p) := by omega
    refine ⟨by simp [updateTaskTool, hcond], ?_⟩
    cases title <;> simp [lookupField, updateTaskBody]
  · intro h
    simp [updateTaskTool, h]

/-- Witness for C4 at percentComplete 101 (rejected, no trace) and 50
(delta carries the integer). -/
theorem C4_percent_complete_validation_witness :
    updateTaskTool envW "T1" none (some 101) none none =
      (.error .validationError, []) ∧
    lookupField (updateTaskBody none (some 50) none none) "percentComplete" =
      some (Json.num 50) :=
  ⟨(C4_percent_complete_validation envW "T1" none none none 101).2 (by omega),
   ((C4_percent_complete_validation envW "T1" none none none 50).1
      (by omega) (by omega)).2⟩

/-- Claim C5: the update-task delta has exactly one key per supplied
parameter, in code order, with absent parameters omitted entirely (never
null); with only percentComplete 100 supplied the body is exactly that one
field.  Supplying assignUserId or category means a truthy (nonempty)
string, matching the source's `if (assignUserId)` guard. -/
theorem C5_update_task_delta_keys (title : Option String) (pc : Option Int)
    (assign cat : Option String)
    (ha : assign ≠ some "") (hc : cat ≠ some "") :
    jsonKeys (updateTaskBody title pc assign cat) =
      optKey "title" title ++ optKey "percentComplete" pc ++
      optKey "assignments" assign ++ optKey "appliedCategories" cat ∧
    Json.null ∉ jsonVals (updateTaskBody title pc assign cat) ∧
    updateTaskBody none (some 100) none none =
      Json.obj [("percentComplete", Json.num 100)] := by
  refine ⟨?_, ?_, rfl⟩ <;>
    cases title <;> cases pc <;> cases assign <;> cases cat <;>
      simp_all [updateTaskBody, jsonKeys, jsonVals, optKey, jsTruthy]

/-- Witness for C5 with all four parameters supplied. -/
theorem C5_update_task_delta_keys_witness :
    jsonKeys (updateTaskBody (some "t") (some 50) (some "u") (some "category5")) =
      ["title", "percentComplete", "assignments", "appliedCategories"] ∧
    Json.null ∉ jsonVals (updateTaskBody (some "t") (some 50) (some "u") (some "category5")) := by
  have h := C5_update_task_delta_keys (some "t") (some 50) (some "u") (some "category5")
    (by simp) (by simp)
  exact ⟨h.1, h.2.1⟩

/-- Claim C6: batch-adding N titles yields a checklist delta with exactly N
entries under N distinct generated ids (one per title, repeats included),
every entry unchecked; only the single-item variant carries an explicit
checked flag.  The id supply is assumed collision-free on the indices
drawn, as the spec requires of `randomUUID()`. -/
theorem C6_checklist_batch_add (ids : Nat → String) (items : List String)
    (hinj : ∀ i j, i < items.length → j < items.length → ids i = ids j → i = j) :
    (addChecklistItemsMap ids items).length = items.length ∧
    ((addChecklistItemsMap ids items).map Prod.fst).Nodup ∧
    (∀ kv ∈ addChecklistItemsMap ids items,
      lookupField kv.2 "isChecked" = some (Json.bool false)) ∧
    addChecklistItemsBody ids items =
      Json.obj [("checklist", Json.obj (addChecklistItemsMap ids items))] ∧
    (∀ itemId title isChecked,
      addChecklistItemBody itemId title isChecked =
        Json.obj [("checklist", Json.obj [(itemId, checklistEntry title isChecked)])] ∧
      lookupField (checklistEntry title isChecked) "isChecked" =
        some (Json.bool isChecked)) := by
  refine ⟨by simp [addChecklistItemsMap], ?_, ?_, rfl, ?_⟩
  · have hkeys : (addChecklistItemsMap ids items).map Prod.fst =
        (List.range items.length).map ids := by
      simp only [addChecklistItemsMap, List.map_map, List.enum_eq_zip_range]
      have hcomp : (Prod.fst ∘ fun p : Nat × String =>
          (ids p.1, checklistEntry p.2 false)) = fun p : Nat × String => ids p.1 := rfl
      rw [hcomp]
      have : (fun p : Nat × String => ids p.1) =
          (ids ∘ Prod.fst : Nat × String → String) := rfl
      rw [this, ← List.map_map]
      rw [List.map_fst_zip]
      simp
    rw [hkeys]
    refine List.Nodup.map_on ?_ (List.nodup_range _)
    intro i hi j hj hij
    exact hinj i j (List.mem_range.mp hi) (List.mem_range.mp hj) hij
  · intro kv hkv
    simp only [addChecklistItemsMap, List.mem_map] at hkv
    obtain ⟨p, _, hp⟩ := hkv
    rw [← hp]
    simp [lookupField, checklistEntry]
  · intro itemId title isChecked
    exact ⟨rfl, by simp [lookupField, checklistEntry]⟩

/-- Witness for C6: two identical titles still get two distinct ids. -/
theorem C6_checklist_batch_add_witness :
    (addChecklistItemsMap idsW ["x", "x"]).length = 2 ∧
    ((addChecklistItemsMap idsW ["x", "x"]).map Prod.fst).Nodup := by
  have h := C6_checklist_batch_add idsW ["x", "x"] (by
    intro i j _ _ hij
    have hlen := congrArg (fun s => s.data.length) hij
    simpa [idsW] using hlen)
  exact ⟨h.1, h.2.1⟩

/-- Claim C1: in every guarded mutation, the If-Match token of the write is
the (shell-escaped) token fetched within that same call for the same
resource kind and id — task endpoint for update/move/delete-task,
task-details endpoint for the details/checklist/reference tools, bucket
endpoint for the bucket tools; the call's only token fetch targets exactly
the written resource, and the task and task-details endpoints are distinct
so their tokens can never be interchanged.  Each execute function takes the
environment afresh, so no token survives from one call to the next. -/
theorem C1_etag_guard_matches_fetched_resource (env : GraphEnv)
    (taskId bucketId itemId description name refUrl : String)
    (title assignUserId category aliasName refType : Option String)
    (pc : Option Int) (isChecked : Bool) (titleU : Option String)
    (checkedU : Option Bool) (ids : Nat → String) (items : List String) :
    (etagFetches (updateTaskExec env taskId title pc assignUserId category) =
        [resourceUrl .task taskId] ∧
      guardedWrites (updateTaskExec env taskId title pc assignUserId category) =
        [(resourceUrl .task taskId, escapeEtag (getETag env .task taskId))]) ∧
    (etagFetches (moveTaskExec env taskId bucketId) = [resourceUrl .task taskId] ∧
      guardedWrites (moveTaskExec env taskId bucketId) =
        [(resourceUrl .task taskId, escapeEtag (getETag env .task taskId))]) ∧
    (etagFetches (deleteTaskExec env taskId) = [resourceUrl .task taskId] ∧
      guardedWrites (deleteTaskExec env taskId) =
        [(resourceUrl .task taskId, escapeEtag (getETag env .task taskId))]) ∧
    (etagFetches (updateTaskDetailsExec env taskId description) =
        [resourceUrl .taskDetails taskId] ∧
      guardedWrites (updateTaskDetailsExec env taskId description) =
        [(resourceUrl .taskDetails taskId, escapeEtag (getETag env .taskDetails taskId))]) ∧
    (etagFetches (addChecklistItemExec env taskId itemId name isChecked) =
        [resourceUrl .taskDetails taskId] ∧
      guardedWrites (addChecklistItemExec env taskId itemId name isChecked) =
        [(resourceUrl .taskDetails taskId, escapeEtag (getETag env .taskDetails taskId))]) ∧
    (etagFetches (addChecklistItemsExec env taskId ids items) =
        [resourceUrl .taskDetails taskId] ∧
      guardedWrites (addChecklistItemsExec env taskId ids items) =
        [(resourceUrl .taskDetails taskId, escapeEtag (getETag env .taskDetails taskId))]) ∧
    (etagFetches (updateChecklistItemExec env taskId itemId titleU checkedU) =
        [resourceUrl .taskDetails taskId] ∧
      guardedWrites (updateChecklistItemExec env taskId itemId titleU checkedU) =
        [(resourceUrl .taskDetails taskId, escapeEtag (getETag env .taskDetails taskId))]) ∧
    (etagFetches (deleteChecklistItemExec env taskId itemId) =
        [resourceUrl .taskDetails taskId] ∧
      guardedWrites (deleteChecklistItemExec env taskId itemId) =
        [(resourceUrl .taskDetails taskId, escapeEtag (getETag env .taskDetails taskId))]) ∧
    (etagFetches (addReferenceExec env taskId refUrl aliasName refType) =
        [resourceUrl .taskDetails taskId] ∧
      guardedWrites (addReferenceExec env taskId refUrl aliasName refType) =
        [(resourceUrl .taskDetails taskId, escapeEtag (getETag env .taskDetails taskId))]) ∧
    (etagFetches (deleteReferenceExec env taskId refUrl) =
        [resourceUrl .taskDetails taskId] ∧
      guardedWrites (deleteReferenceExec env taskId refUrl) =
        [(resourceUrl .taskDetails taskId, escapeEtag (getETag env .taskDetails taskId))]) ∧
    (etagFetches (updateBucketExec env bucketId name) = [resourceUrl .bucket bucketId] ∧
      guardedWrites (updateBucketExec env bucketId name) =
        [(resourceUrl .bucket bucketId, escapeEtag (getETag env .bucket bucketId))]) ∧
    (etagFetches (deleteBucketExec env bucketId) = [resourceUrl .bucket bucketId] ∧
      guardedWrites (deleteBucketExec env bucketId) =
        [(resourceUrl .bucket bucketId, escapeEtag (getETag env .bucket bucketId))]) ∧
    resourceUrl .task taskId ≠ resourceUrl .taskDetails taskId := by
  refine ⟨⟨rfl, rfl⟩, ⟨rfl, rfl⟩, ⟨rfl, rfl⟩, ⟨rfl, rfl⟩, ⟨rfl, rfl⟩, ⟨rfl, rfl⟩,
    ⟨rfl, rfl⟩, ⟨rfl, rfl⟩, ⟨rfl, rfl⟩, ⟨rfl, rfl⟩, ⟨rfl, rfl⟩, ⟨rfl, rfl⟩, ?_⟩
  intro h
  have hlen := congrArg String.length h
  simp [resourceUrl, String.length_append] at hlen
  exact absurd hlen (by decide)

/-- Counterexample to claim C2: on a task whose conversation reference
resolves to zero threads, get-task-comments does not fail — it returns the
(empty) flattened comment list. -/
theorem C2_counterexample_empty_threads_no_error :
    getTaskComments envConv "T1" = Except.ok (CommentsOutput.comments []) ∧
    getTaskComments envConv "T1" ≠
      Except.error PlannerError.emptyConversationError := by
  refine ⟨rfl, ?_⟩
  intro h
  rw [show getTaskComments envConv "T1" =
    Except.ok (CommentsOutput.comments []) from rfl] at h
  exact Except.noConfusion h

/-- Claim C2 as amended: on a task whose conversation reference resolves to
a conversation with zero threads, get-task-comments succeeds with an empty
comment list (the per-thread loop simply iterates zero times); only
add-task-comment raises the empty-conversation error in that state. -/
theorem C2_amended_empty_threads_empty_list (env : GraphEnv) (taskId : String)
    (htr : jsTruthy (env.taskOf taskId).conversationThreadId = true)
    (hth : env.threadsOf (env.groupIdOf (env.taskOf taskId).planId)
        ((env.taskOf taskId).conversationThreadId.getD "") = []) :
    getTaskComments env taskId = Except.ok (CommentsOutput.comments []) := by
  simp [getTaskComments, htr, hth]

/-- Witness for the amended C2 at a concrete environment. -/
theorem C2_amended_empty_threads_empty_list_witness :
    getTaskComments envConv "T7" = Except.ok (CommentsOutput.comments []) :=
  C2_amended_empty_threads_empty_list envConv "T7" rfl rfl

/-- Claim C8: add-task-comment on a task without a conversation reference
creates a thread whose topic is the task's title with one text post
carrying the comment, takes the conversation id from the response's
conversationId field (falling back to the object's own id), attaches it to
the task by an ETag-guarded PATCH, and reports a partial success carrying
the conversation id — not an error — when that attach fails. -/
theorem C8_add_comment_new_conversation (env : GraphEnv)
    (taskId comment : String)
    (hconv : jsTruthy (env.taskOf taskId).conversationThreadId = false) :
    addTaskComment env taskId comment =
      ((if env.attachSucceeds then
          Except.ok (AddCommentResult.createdNew
            (jsOrElse env.createThreadResp.conversationId env.createThreadResp.id))
        else
          Except.ok (AddCommentResult.createdNewWithWarning
            (jsOrElse env.createThreadResp.conversationId env.createThreadResp.id))),
       [Effect.getReq (resourceUrl .task taskId),
        Effect.getReq (planUrl (env.taskOf taskId).planId),
        Effect.postReq (groupThreadsUrl (env.groupIdOf (env.taskOf taskId).planId))
          (newThreadBody (env.taskOf taskId).title comment),
        Effect.getReq (resourceUrl .task taskId),
        Effect.patchReq (resourceUrl .task taskId)
          (escapeEtag (getETag env .task taskId))
          (Json.obj [("conversationThreadId",
            Json.str (jsOrElse env.createThreadResp.conversationId
              env.createThreadResp.id))])]) ∧
    (env.createThreadResp.conversationId = none →
      jsOrElse env.createThreadResp.conversationId env.createThreadResp.id =
        env.createThreadResp.id) ∧
    (∀ s, env.createThreadResp.conversationId = some s → s ≠ "" →
      jsOrElse env.createThreadResp.conversationId env.createThreadResp.id = s) ∧
    lookupField (newThreadBody (env.taskOf taskId).title comment) "topic" =
      some (Json.str (env.taskOf taskId).title) ∧
    (env.attachSucceeds = false →
      (addTaskComment env taskId comment).1 =
        Except.ok (AddCommentResult.createdNewWithWarning
          (jsOrElse env.createThreadResp.conversationId env.createThreadResp.id))) := by
  refine ⟨?_, ?_, ?_, ?_, ?_⟩
  · simp only [addTaskComment, hconv, Bool.false_eq_true, if_false]
    by_cases hA : env.attachSucceeds <;> simp [hA]
  · intro h
    simp [jsOrElse, h]
  · intro s hs hne
    simp [jsOrElse, hs, hne]
  · simp [lookupField, newThreadBody]
  · intro hA
    simp only [addTaskComment, hconv, Bool.false_eq_true, if_false, hA]

/-- Witness for C8: a failing attach still reports partial success with the
orphaned conversation id. -/
theorem C8_add_comment_new_conversation_witness :
    (addTaskComment envAttachFail "T1" "hello").1 =
      Except.ok (AddCommentResult.createdNewWithWarning "CONV1") :=
  (C8_add_comment_new_conversation envAttachFail "T1" "hello" rfl).2.2.2.2 rfl

/-- Claim C9: add-task-comment on a task with a conversation reference fails
with the empty-conversation error when the thread listing is empty, and
otherwise replies to the first thread in the upstream listing order with
the wrapped text post — no reordering. -/
theorem C9_add_comment_existing_conversation (env : GraphEnv)
    (taskId comment : String)
    (hconv : jsTruthy (env.taskOf taskId).conversationThreadId = true) :
    (env.threadsOf (env.groupIdOf (env.taskOf taskId).planId)
        ((env.taskOf taskId).conversationThreadId.getD "") = [] →
      addTaskComment env taskId comment =
        (Except.error PlannerError.emptyConversationError,
         [Effect.getReq (resourceUrl .task taskId),
          Effect.getReq (planUrl (env.taskOf taskId).planId),
          Effect.getReq (threadsListUrl (env.groupIdOf (env.taskOf taskId).planId)
            ((env.taskOf taskId).conversationThreadId.getD ""))])) ∧
    (∀ t ts, env.threadsOf (env.groupIdOf (env.taskOf taskId).planId)
        ((env.taskOf taskId).conversationThreadId.getD "") = t :: ts →
      addTaskComment env taskId comment =
        (Except.ok AddCommentResult.repliedExisting,
         [Effect.getReq (resourceUrl .task taskId),
          Effect.getReq (planUrl (env.taskOf taskId).planId),
          Effect.getReq (threadsListUrl (env.groupIdOf (env.taskOf taskId).planId)
            ((env.taskOf taskId).conversationThreadId.getD "")),
          Effect.postReq (replyUrl (env.groupIdOf (env.taskOf taskId).planId)
              ((env.taskOf taskId).conversationThreadId.getD "") t.id)
            (replyPostBody comment)])) := by
  constructor
  · intro h
    simp [addTaskComment, hconv, h]
  · intro t ts h
    simp [addTaskComment, hconv, h]

/-- Witness for C9: empty listing errors; singleton listing replies to the
single (first) thread. -/
theorem C9_add_comment_existing_conversation_witness :
    (addTaskComment envConv "T1" "hi").1 =
      Except.error PlannerError.emptyConversationError ∧
    (addTaskComment envConvThread "T1" "hi").1 =
      Except.ok AddCommentResult.repliedExisting := by
  constructor
  · rw [(C9_add_comment_existing_conversation envConv "T1" "hi" rfl).1 rfl]
  · rw [(C9_add_comment_existing_conversation envConvThread "T1" "hi" rfl).2
      { id := "TH1" } [] rfl]

/-- Every hex digit the percent-escape uses belongs to the fixed digit list. -/
theorem hexDigitChar_mem_hexDigits (n : Nat) : hexDigitChar n ∈ hexDigits := by
  have hlt : n % 16 < hexDigits.length := by
    have h16 : hexDigits.length = 16 := rfl
    rw [h16]
    exact Nat.mod_lt _ (by decide)
  rw [hexDigitChar, List.getD_eq_getElem hexDigits _ hlt]
  exact List.getElem_mem hlt

/-- Every character of a percent-escape is the percent sign or a hex digit. -/
theorem percentEncodeByte_chars (b : Nat) (c : Char)
    (hc : c ∈ percentEncodeByte b) : c = '%' ∨ c ∈ hexDigits := by
  simp only [percentEncodeByte, List.mem_cons, List.mem_singleton,
    List.not_mem_nil, or_false] at hc
  rcases hc with h | h | h
  · exact Or.inl h
  · exact Or.inr (h ▸ hexDigitChar_mem_hexDigits _)
  · exact Or.inr (h ▸ hexDigitChar_mem_hexDigits _)

/-- A character `encodeURIComponent` leaves unescaped is not a colon and not
a slash. -/
theorem unescaped_not_scheme_delim (c : Char)
    (h : isComponentUnescaped c = true) : c ≠ ':' ∧ c ≠ '/' := by
  constructor <;> rintro rfl <;> exact absurd h (by decide)

/-- No character of the per-character encoding is a colon or a slash. -/
theorem encodeURIComponentChar_no_scheme_delim (c d : Char)
    (hd : d ∈ encodeURIComponentChar c) : d ≠ ':' ∧ d ≠ '/' := by
  rw [encodeURIComponentChar] at hd
  by_cases h : isComponentUnescaped c = true
  · rw [if_pos h] at hd
    simp only [List.mem_singleton] at hd
    exact hd ▸ unescaped_not_scheme_delim c h
  · rw [if_neg h] at hd
    obtain ⟨b, _, hb⟩ := List.mem_flatMap.mp hd
    rcases percentEncodeByte_chars b d hb with h1 | h1
    · subst h1
      exact ⟨by decide, by decide⟩
    · constructor <;> rintro rfl <;> exact absurd h1 (by decide)

/-- The per-character encoding contributes one period for a period and none
otherwise. -/
theorem encodeURIComponentChar_count_dot (c : Char) :
    (encodeURIComponentChar c).count '.' = if c = '.' then 1 else 0 := by
  rw [encodeURIComponentChar]
  by_cases h : isComponentUnescaped c = true
  · rw [if_pos h]
    by_cases hc : c = '.'
    · subst hc; simp
    · simp [List.count_singleton, hc, if_neg hc]
  · rw [if_neg h]
    have hnc : c ≠ '.' := by
      rintro rfl
      exact h (by decide)
    rw [if_neg hnc]
    rw [List.count_eq_zero]
    intro hmem
    obtain ⟨b, _, hb⟩ := List.mem_flatMap.mp hmem
    rcases percentEncodeByte_chars b _ hb with h1 | h1
    · exact absurd h1 (by decide)
    · exact absurd h1 (by decide)

/-- Counterexample to claim C3: the references-map key built for a URL does
not keep the scheme separator intact — `encodeUrlForReference` percent-
encodes the colon and both slashes. -/
theorem C3_counterexample_scheme_separator_encoded :
    encodeUrlForReference "https://a.com" = "https%3A%2F%2Fa.com" ∧
    ¬ List.IsInfix "://".data (encodeUrlForReference "https://a.com").data := by
  constructor
  · rfl
  · decide

/-- Claim C3 as amended: the encoding never leaves the scheme separator
characters in the key — no colon and no slash survives into the produced
references-map key — while periods pass through unencoded (the key has
exactly the URL's periods), which is what the source's comment about not
encoding periods promises. -/
theorem C3_amended_delimiters_encoded_dots_kept (url : String) :
    (∀ c ∈ (encodeUrlForReference url).data, c ≠ ':' ∧ c ≠ '/') ∧
    (encodeUrlForReference url).data.count '.' = url.data.count '.' := by
  constructor
  · intro c hc
    have hmem : c ∈ url.data.flatMap encodeURIComponentChar := hc
    obtain ⟨d, _, hd⟩ := List.mem_flatMap.mp hmem
    exact encodeURIComponentChar_no_scheme_delim d c hd
  · show (url.data.flatMap encodeURIComponentChar).count '.' = url.data.count '.'
    induction url.data with
    | nil => rfl
    | cons a l ih =>
        rw [List.flatMap_cons, List.count_append, ih, List.count_cons,
          encodeURIComponentChar_count_dot]
        by_cases ha : a = '.'
        · subst ha
          simp [Nat.add_comm]
        · simp [ha]

/-- Witness for the amended C3 at a concrete URL: no colon survives and the
period count is preserved. -/
theorem C3_amended_delimiters_encoded_dots_kept_witness :
    ':' ∉ (encodeUrlForReference "https://a.com").data ∧
    (encodeUrlForReference "https://a.com").data.count '.' =
      ("https://a.com").data.count '.' :=
  ⟨fun h => ((C3_amended_delimiters_encoded_dots_kept "https://a.com").1 _ h).1 rfl,
   (C3_amended_delimiters_encoded_dots_kept "https://a.com").2⟩
